import Mathlib

set_option maxRecDepth 100000

/-!
Verification of `better_jamf_printer_policy.py`.

The program shells out to external tools (`lpstat`, `lpadmin`, `jamf`,
`jamfHelper`) and branches on their captured output.  We embed it shallowly:
each external invocation is represented by a `RunResult` supplied by the
environment (`none` models a process-launch failure, i.e. `subprocess.Popen`
raising; `some ⟨out, err⟩` models a completed run with captured streams).
Python-level runtime faults (UnboundLocalError, AttributeError, TypeError)
are modelled with `Except PyError`.  The orchestrator (`main`) is embedded as
a function from parsed arguments and an environment to the list of external
operations it performs plus its terminal outcome.
-/

/-- Captured standard output / standard error of one completed external
command, as `proc.communicate()` returns them. -/
structure CmdStreams where
  out : String
  err : String
deriving DecidableEq, Repr

/-- Result of attempting to spawn one external command: `none` when the spawn
itself raises (e.g. `OSError` because the binary is missing), `some` the
captured streams otherwise. -/
abbrev RunResult := Option CmdStreams

/-- Python runtime faults that the script can raise uncaught. -/
inductive PyError where
  | nameError (ident : String)
  | attrError (msg : String)
  | typeError (msg : String)
deriving DecidableEq, Repr

/-! ## Python string primitives used by the script -/

/-- Python 2 `str.splitlines` restricted to `'\n'`: worker that walks the
character list; a final trailing newline does not produce an empty last
line. -/
def splitLinesGo : List Char → List Char → List (List Char)
  | [], acc => [acc.reverse]
  | '\n' :: [], acc => [acc.reverse]
  | '\n' :: c :: rest, acc => acc.reverse :: splitLinesGo (c :: rest) []
  | c :: rest, acc => splitLinesGo rest (c :: acc)

/-- Python `s.splitlines()`: the empty string yields no lines at all. -/
def splitLines (s : String) : List (List Char) :=
  match s.data with
  | [] => []
  | c :: rest => splitLinesGo (c :: rest) []

/-- Index of the first occurrence of `needle` in the haystack, if any. -/
def findFirstAt (needle : List Char) : List Char → Option Nat
  | [] => if needle.isEmpty then some 0 else none
  | c :: rest =>
    if needle.isPrefixOf (c :: rest) then some 0
    else (findFirstAt needle rest).map (· + 1)

/-- Index of the last occurrence of `needle` in the haystack, if any. -/
def findLastAt (needle : List Char) : List Char → Option Nat
  | [] => if needle.isEmpty then some 0 else none
  | c :: rest =>
    match findLastAt needle rest with
    | some i => some (i + 1)
    | none => if needle.isPrefixOf (c :: rest) then some 0 else none

/-- Python `sub in hay` for strings. -/
def pyContains (hay sub : String) : Bool :=
  (findFirstAt sub.data hay.data).isSome

/-- Python 2 `str.lower()` (ASCII). -/
def pyLower (s : String) : String :=
  String.mk (s.data.map Char.toLower)

/-- Python `str(x)` on an optional string: `str(None)` is `"None"`. -/
def pyStrOf : Option String → String
  | none => "None"
  | some s => s

/-- Python `s.split(",")`: worker over the characters, accumulating the
current field reversed. -/
def pySplitCommaGo : List Char → List Char → List String
  | [], cur => [String.mk cur.reverse]
  | ',' :: rest, cur => String.mk cur.reverse :: pySplitCommaGo rest []
  | c :: rest, cur => pySplitCommaGo rest (c :: cur)

/-- Python `s.split(",")`: `"".split(",")` is `[""]`, and every comma starts
a new (possibly empty) field. -/
def pySplitComma (s : String) : List String :=
  pySplitCommaGo s.data []

/-- Python `s.rfind(c)`: index of the last occurrence, `-1` when absent. -/
def rfindIdx (c : Char) : List Char → Int
  | [] => -1
  | x :: xs =>
    match rfindIdx c xs with
    | r => if r ≥ 0 then r + 1 else if x == c then 0 else -1

/-! ## Printer-name extraction (`re.search(r'device for (.*): ', line)`)

`re.search` matches at the leftmost feasible start; the pattern opens with
the literal `"device for "`, and a start is feasible iff some `": "` occurs
after the literal (the earliest literal occurrence is feasible whenever any
is).  The greedy `.*` then extends group 1 to the *last* `": "` of the
line. -/

/-- The literal prefix of the pattern. -/
def devForPat : List Char := "device for ".data

/-- The literal `": "` that closes group 1. -/
def colonSpacePat : List Char := ": ".data

/-- Group 1 of `re.search(r'device for (.*): ', line)`, when the pattern
matches. -/
def extractPrinterName (line : List Char) : Option String :=
  match findFirstAt devForPat line with
  | none => none
  | some p =>
    match findLastAt colonSpacePat (line.drop (p + devForPat.length)) with
    | none => none
    | some q => some (String.mk ((line.drop (p + devForPat.length)).take q))

/-- The list-comprehension over `out.splitlines()` in
`return_installed_printer_names`: lines whose pattern search fails are
skipped. -/
def pyExtractPrinters (out : String) : List String :=
  (splitLines out).filterMap extractPrinterName

/-! ## The five external-command wrappers -/

/-- `remove_printer`: success is `True` unless the spawn raised (bare
`except`) or `lpadmin -x` wrote to stderr. -/
def remove_printer (run : RunResult) : Bool :=
  match run with
  | none => false
  | some res => if res.err ≠ "" then false else true

/-- `return_installed_printer_names`: the `try` block computes `out`/`err`
and the success flag; the extraction over `out.splitlines()` happens *after*
the `try`, so when the spawn raised, `out` was never assigned and the
function raises `UnboundLocalError` for `out` instead of returning. -/
def return_installed_printer_names (run : RunResult) :
    Except PyError (Bool × List String) :=
  match run with
  | none => Except.error (PyError.nameError "out")
  | some res =>
    Except.ok (if res.err ≠ "" then false else true, pyExtractPrinters res.out)

/-- `call_jamf_policy`: stderr output, or the phrase
`"No policies were found for the"` on stdout, or a spawn failure each clear
the flag; then, unconditionally, a missing driver file at `path` forces the
result to `False` regardless of what the trigger reported. -/
def call_jamf_policy (run : RunResult) (ppdExistsAfter : Bool) : Bool :=
  let s :=
    match run with
    | none => false
    | some res =>
      if res.err ≠ "" then false
      else if pyContains res.out "No policies were found for the" then false
      else true
  if ppdExistsAfter then s else false

/-- `install_printer`'s success flag: `True` unless the spawn raised or
`lpadmin` wrote to stderr. -/
def install_printer (run : RunResult) : Bool :=
  match run with
  | none => false
  | some res => if res.err ≠ "" then false else true

/-! ## Parsed arguments

`argparse` with `nargs="?"` leaves an omitted positional at `None`
(modelled `Option.none`), except `overwrite_ppd`, whose default is the
string `"overwrite"`, and `printer_name`, which is required.  `mode` is
constrained by `choices=['Add', 'Remove']`. -/

/-- The `mode` positional: `choices=['Add', 'Remove']`. -/
inductive Mode where
  | Add
  | Remove
deriving DecidableEq, Repr

/-- The parsed arguments the orchestrator reads. -/
structure Args where
  mode : Mode
  printer_name : String
  printer_opts_csv : Option String
  printer_uri : Option String
  ppd_path : Option String
  printer_description : Option String
  jamf_event : Option String
  overwrite_ppd : String
deriving DecidableEq, Repr

/-- Outside world for one invocation: results of the spawns `main` may
perform and the two `os.path.exists(ppd_path)` probes (one in `main` before
deciding to trigger, one inside `call_jamf_policy` after the trigger). -/
structure Env where
  lpstatRun : RunResult
  removeRun : RunResult
  ppdExistsBefore : Bool
  jamfRun : RunResult
  ppdExistsAfter : Bool
  installRun : RunResult
deriving DecidableEq, Repr

/-- External operations the script performs, in order: the `lpstat -s`
query, `lpadmin -x`, `jamf policy -event`, `lpadmin -p` (recording the
single joined options argument), and a `jamfHelper` error dialog. -/
inductive Ev where
  | lpstatQuery
  | lpadminRemove (name : String)
  | jamfPolicyTrigger (event : String)
  | lpadminInstall (optsArg : String)
  | showDialog (msg : String)
deriving DecidableEq, Repr

/-- Terminal outcome of the script: `sys.exit(code)` after writing `msg`, or
an uncaught Python fault. -/
inductive Outcome where
  | exited (code : Nat) (msg : String)
  | fault (e : PyError)
deriving DecidableEq, Repr

/-- Does an event invoke the driver-installer trigger? -/
def isJamfTrigger : Ev → Bool
  | Ev.jamfPolicyTrigger _ => true
  | _ => false

/-- Does an event invoke `lpadmin -p` (the printer installer)? -/
def isInstallEv : Ev → Bool
  | Ev.lpadminInstall _ => true
  | _ => false

/-- Does an event invoke `lpadmin -x` (the printer remover)? -/
def isRemoveEv : Ev → Bool
  | Ev.lpadminRemove _ => true
  | _ => false

/-! ## Option building (`main`, lines 320–324)

`args.printer_opts_csv == ""` is `False` for `None`, so `None` falls into
the `else` branch and `None.split(",")` raises.  For the empty string the
code assigns the *bare string* `'printer-is-shared=False'` — not a
one-element list — and for a non-empty CSV it splits on `","` and appends
the forced option. -/

/-- A Python value that is either a plain string or a list of strings:
`printer_options` has both shapes in the source. -/
inductive OptsVal where
  | pyStr (s : String)
  | pyList (l : List String)
deriving DecidableEq, Repr

/-- `printer_options` as built in `main`. -/
def buildPrinterOptions (csv : Option String) : Except PyError OptsVal :=
  match csv with
  | none => Except.error (PyError.attrError "NoneType object has no attribute split")
  | some s =>
    if s == "" then Except.ok (OptsVal.pyStr "printer-is-shared=False")
    else Except.ok (OptsVal.pyList (pySplitComma s ++ ["printer-is-shared=False"]))

/-- Is the built `printer_options` value a list? -/
def optsIsList : Except PyError OptsVal → Bool
  | Except.ok (OptsVal.pyList _) => true
  | _ => false

/-- `' -o '.join(printer_options)` as `install_printer` computes it: joining
a Python *string* iterates its characters. -/
def joinedOptsArg : OptsVal → String
  | OptsVal.pyStr s => String.intercalate " -o " (s.data.map fun c => String.mk [c])
  | OptsVal.pyList l => String.intercalate " -o " l

/-! ## Printer model name (`main`, line 327)

`os.path.basename(os.path.splitext(ppd_path)[0])`, with POSIX semantics:
`splitext` splits at the last `'.'` only when it follows the last `'/'` and
the name part up to it is not all dots; `basename` takes everything after
the last `'/'`.  On `None`, `splitext` raises. -/

/-- First component of `posixpath.splitext`. -/
def splitextBase (p : String) : String :=
  let cs := p.data
  let sepIndex := rfindIdx '/' cs
  let dotIndex := rfindIdx '.' cs
  if sepIndex < dotIndex then
    if ((cs.drop (sepIndex + 1).toNat).take (dotIndex - sepIndex - 1).toNat).any
        (fun ch => ch != '.') then
      String.mk (cs.take dotIndex.toNat)
    else p
  else p

/-- `posixpath.basename`. -/
def pyBasename (p : String) : String :=
  String.mk (p.data.drop (rfindIdx '/' p.data + 1).toNat)

/-- `printer_model` as computed in `main`; faults when `ppd_path` is `None`. -/
def buildPrinterModel (ppd : Option String) : Except PyError String :=
  match ppd with
  | none => Except.error (PyError.attrError "NoneType object has no attribute rfind")
  | some p => Except.ok (pyBasename (splitextBase p))

/-! ## The insufficient-parameters check (`main`, lines 307–309)

The source combines the three comparisons with `and`, and wraps only
`ppd_path` in `str(...)`; `None == ""` is `False` in Python. -/

/-- The condition of the `if` guarding the insufficient-parameters exit. -/
def insufficientParams (uri ppd event : Option String) : Bool :=
  (uri == some "") && (pyStrOf ppd == "") && (event == some "")

/-! ## Message strings written by `main` (concatenations as in the source) -/

/-- Message on the insufficient-parameters path. -/
def insufficientMsg : String :=
  "Error: An insufficient number of paramaters were supplied to this script.\n\nThis process REQUIRES the URI, PPD path, and jamf event when adding printers."

/-- Message when removal succeeded. -/
def removedMsg (name : String) : String :=
  "The printer \"" ++ name ++ "\" has been removed."

/-- Message when `lpadmin -x` reported failure. -/
def notRemovedMsg (name : String) : String :=
  "The printer \"" ++ name ++ "\" was not removed.\n\nPlease contact the Help Desk for further assistance."

/-- Message when the queue to remove is not installed. -/
def notInstalledMsg (name : String) : String :=
  "The printer \"" ++ name ++ "\" is not installed.\n\nPlease select an installed printer for removal."

/-- Message when the printer query failed (the source lacks a space between
"Desk" and "for"). -/
def queryFailMsg : String :=
  "An error occurred getting a list of installed printers.\n\nPlease contact the Help Deskfor further assistance."

/-- Message when the driver trigger failed. -/
def driverFailMsg (model : String) : String :=
  "The printer driver for the \"" ++ model ++ "\" was not installed.\n\nPlease contact the Help Desk for further assistance."

/-- Message on successful installation. -/
def installedMsg (model name : String) : String :=
  "The \"" ++ model ++ "\" printer named \"" ++ name ++ "\" was installed successfully."

/-- Message when `install_printer` reported failure. -/
def installFailMsg (model name : String) : String :=
  "The \"" ++ model ++ "\" printer named \"" ++ name ++ "\" was not installed.\n\nPlease contact the Help Desk for further assistance."

/-! ## Orchestrator -/

/-- The tail of the Add flow: invoke `install_printer` with the joined
options argument and report. -/
def installStep (env : Env) (name : String) (opts : OptsVal) (model : String)
    (evs : List Ev) : List Ev × Outcome :=
  if install_printer env.installRun then
    (evs ++ [Ev.lpadminInstall (joinedOptsArg opts)],
     Outcome.exited 0 (installedMsg model name))
  else
    (evs ++ [Ev.lpadminInstall (joinedOptsArg opts),
             Ev.showDialog (installFailMsg model name)],
     Outcome.exited 1 (installFailMsg model name))

/-- The `args.mode == "Add"` branch of `main` (lines 303–362).  When the
trigger branch is taken with `jamf_event = None`, the status line written
just before the trigger concatenates `args.jamf_event` into a string and
raises `TypeError` before `call_jamf_policy` runs. -/
def addFlow (a : Args) (env : Env) : List Ev × Outcome :=
  if insufficientParams a.printer_uri a.ppd_path a.jamf_event then
    ([Ev.showDialog insufficientMsg], Outcome.exited 1 insufficientMsg)
  else
    match buildPrinterOptions a.printer_opts_csv with
    | Except.error e => ([], Outcome.fault e)
    | Except.ok opts =>
      match buildPrinterModel a.ppd_path with
      | Except.error e => ([], Outcome.fault e)
      | Except.ok model =>
        if !env.ppdExistsBefore || pyLower a.overwrite_ppd == "overwrite" then
          match a.jamf_event with
          | none =>
            ([], Outcome.fault (PyError.typeError "cannot concatenate str and NoneType objects"))
          | some ev =>
            if call_jamf_policy env.jamfRun env.ppdExistsAfter then
              installStep env a.printer_name opts model [Ev.jamfPolicyTrigger ev]
            else
              ([Ev.jamfPolicyTrigger ev, Ev.showDialog (driverFailMsg model)],
               Outcome.exited 1 (driverFailMsg model))
        else
          installStep env a.printer_name opts model []

/-- The `args.mode == "Remove"` branch of `main` (lines 262–300). -/
def removeFlow (a : Args) (env : Env) : List Ev × Outcome :=
  match return_installed_printer_names env.lpstatRun with
  | Except.error e => ([Ev.lpstatQuery], Outcome.fault e)
  | Except.ok (retSuccess, printers) =>
    if retSuccess then
      if printers.contains a.printer_name then
        if remove_printer env.removeRun then
          ([Ev.lpstatQuery, Ev.lpadminRemove a.printer_name],
           Outcome.exited 0 (removedMsg a.printer_name))
        else
          ([Ev.lpstatQuery, Ev.lpadminRemove a.printer_name,
            Ev.showDialog (notRemovedMsg a.printer_name)],
           Outcome.exited 1 (notRemovedMsg a.printer_name))
      else
        ([Ev.lpstatQuery, Ev.showDialog (notInstalledMsg a.printer_name)],
         Outcome.exited 1 (notInstalledMsg a.printer_name))
    else
      ([Ev.lpstatQuery, Ev.showDialog queryFailMsg],
       Outcome.exited 1 queryFailMsg)

/-- `main`: every path of the Remove branch calls `sys.exit`, so the two
mode branches are disjoint. -/
def mainFlow (a : Args) (env : Env) : List Ev × Outcome :=
  match a.mode with
  | Mode.Remove => removeFlow a env
  | Mode.Add => addFlow a env

/-! ## Claim theorems -/

/-- C1: the claim says that in Add mode an *empty* `printer_uri` alone forces
the insufficient-parameters diagnostic and exit 1 before the driver trigger
and the install; the source combines the three emptiness tests with `and`,
so with `printer_uri = ""` but non-empty `ppd_path` and `jamf_event` the
check does not fire and the run proceeds to trigger the driver policy and
invoke `lpadmin -p`, exiting 0. -/
theorem add_empty_uri_bypasses_param_check :
    insufficientParams (some "") (some "/Library/Printers/PPDs/hp.ppd")
      (some "install_hp") = false ∧
    mainFlow
      (Args.mk Mode.Add "Lobby" (some "Duplex=True") (some "")
        (some "/Library/Printers/PPDs/hp.ppd") (some "Lobby Printer")
        (some "install_hp") "overwrite")
      (Env.mk none none false (some (CmdStreams.mk "policy output" "")) true
        (some (CmdStreams.mk "" ""))) =
      ([Ev.jamfPolicyTrigger "install_hp",
        Ev.lpadminInstall "Duplex=True -o printer-is-shared=False"],
       Outcome.exited 0 (installedMsg "hp" "Lobby")) :=
  ⟨rfl, rfl⟩

/-- C2: with an empty `options_csv` the source assigns the *bare string*
`'printer-is-shared=False'` to `printer_options` rather than a one-element
list, so the options value reaching `install_printer` is not a list and
`' -o '.join` interleaves its characters; the single option never appears as
an element of any list. -/
theorem empty_csv_options_is_bare_string :
    buildPrinterOptions (some "") = Except.ok (OptsVal.pyStr "printer-is-shared=False") ∧
    optsIsList (buildPrinterOptions (some "")) = false ∧
    joinedOptsArg (OptsVal.pyStr "printer-is-shared=False") =
      "p -o r -o i -o n -o t -o e -o r -o - -o i -o s -o - -o s -o h -o a -o r -o e -o d -o = -o F -o a -o l -o s -o e" ∧
    mainFlow
      (Args.mk Mode.Add "Lobby" (some "") (some "lpd://10.0.0.5/q")
        (some "/tmp/hp.ppd") (some "L") (some "install_hp") "keep")
      (Env.mk none none true none true (some (CmdStreams.mk "" ""))) =
      ([Ev.lpadminInstall
          "p -o r -o i -o n -o t -o e -o r -o - -o i -o s -o - -o s -o h -o a -o r -o e -o d -o = -o F -o a -o l -o s -o e"],
       Outcome.exited 0 (installedMsg "hp" "Lobby")) :=
  ⟨rfl, rfl, rfl, rfl⟩

/-- C4: `call_jamf_policy` returns `False` whenever the driver file is
absent after the trigger, whatever the trigger's own streams reported (in
particular for an empty error stream and stdout without the no-policies
phrase): the file-existence check dominates. -/
theorem call_jamf_policy_false_without_ppd (run : RunResult) :
    call_jamf_policy run false = false := by
  simp [call_jamf_policy]

/-- C5: the claim says a process-launch failure in the printer query is
caught and converted to a `(False, list)` return; in the source the bare
`except` does set the flag, but the extraction after the `try` reads `out`,
which was never assigned, so the function raises an uncaught
UnboundLocalError instead of returning. -/
theorem printer_query_launch_failure_faults :
    return_installed_printer_names none =
      Except.error (PyError.nameError "out") :=
  rfl

/-- C6: on spooler output holding `device for LobbyPrinter: usb://...` and
`device for Copier2: lpd://...` in that order, with non-matching lines
interleaved, the extraction yields exactly `["LobbyPrinter", "Copier2"]` and
the non-matching lines are skipped. -/
theorem printer_query_extraction_example :
    return_installed_printer_names
      (some (CmdStreams.mk
        "scheduler is running\ndevice for LobbyPrinter: usb://...\nno match here\ndevice for Copier2: lpd://...\n"
        "")) =
      Except.ok (true, ["LobbyPrinter", "Copier2"]) ∧
    extractPrinterName "scheduler is running".data = none ∧
    extractPrinterName "no match here".data = none :=
  ⟨rfl, rfl, rfl⟩

/-- C10: an Add invocation whose optional positionals were all omitted
(`None`, not `""`) passes the insufficient-parameters check (each comparison
against `""` is `False` for `None`) and then faults uncaught when
`None.split(",")` is evaluated, for every environment; the
diagnostic-plus-dialog exit-1 path is never reached. -/
theorem add_all_absent_faults_on_split (env : Env) (name : String) :
    mainFlow (Args.mk Mode.Add name none none none none none "overwrite") env =
      ([], Outcome.fault (PyError.attrError "NoneType object has no attribute split")) ∧
    insufficientParams none none none = false :=
  ⟨rfl, rfl⟩

/-- C3: whenever the Add flow reaches `install_printer` with a list-valued
option set (any non-empty CSV), the single options argument handed to the
`lpadmin -p` invocation is the elements of that list joined by `" -o "`,
preserving order, and the forced `printer-is-shared=False` entry is the last
element of the list. -/
theorem install_options_arg_is_joined (a : Args) (env : Env) (csv s : String)
    (h1 : a.mode = Mode.Add)
    (h2 : a.printer_opts_csv = some csv)
    (h3 : (csv == "") = false)
    (hs : Ev.lpadminInstall s ∈ (mainFlow a env).1) :
    s = String.intercalate " -o "
      (pySplitComma csv ++ ["printer-is-shared=False"]) ∧
    (pySplitComma csv ++ ["printer-is-shared=False"]).getLast? =
      some "printer-is-shared=False" := by
  refine ⟨?_, by simp⟩
  obtain ⟨mode, pn, pcsv, uri, ppd, desc, jev, ow⟩ := a
  simp only at h1 h2 hs
  subst h1 h2
  simp only [mainFlow, addFlow, buildPrinterOptions, h3, Bool.false_eq_true,
    if_false] at hs
  split at hs
  · simp at hs
  · split at hs
    · simp at hs
    · split at hs
      · split at hs
        · simp at hs
        · split at hs
          · simp only [installStep] at hs
            split at hs <;> simp_all [joinedOptsArg]
          · simp at hs
      · simp only [installStep] at hs
        split at hs <;> simp_all [joinedOptsArg]

/-- Witness for the joined options argument: a concrete Add run whose
`lpadmin -p` invocation received exactly the joined option string. -/
theorem install_options_arg_is_joined_witness :
    "Duplex=True -o printer-is-shared=False" = String.intercalate " -o "
      (pySplitComma "Duplex=True" ++ ["printer-is-shared=False"]) ∧
    (pySplitComma "Duplex=True" ++ ["printer-is-shared=False"]).getLast? =
      some "printer-is-shared=False" :=
  install_options_arg_is_joined
    (Args.mk Mode.Add "Queue42" (some "Duplex=True") (some "lpd://10.0.0.7/q")
      (some "/tmp/x.ppd") none (some "install_x") "keepexisting")
    (Env.mk none none true none false (some (CmdStreams.mk "" "")))
    "Duplex=True" "Duplex=True -o printer-is-shared=False" rfl rfl rfl
    (by decide)

/-- C7: in Add mode, when the driver file already exists and the overwrite
policy differs case-insensitively from "overwrite", and the flow gets past
parameter validation and option building, the trace contains no driver
trigger and its first external operation is the `lpadmin -p` install. -/
theorem add_existing_ppd_no_overwrite_skips_trigger (a : Args) (env : Env)
    (csv p : String)
    (h1 : a.mode = Mode.Add)
    (h2 : insufficientParams a.printer_uri a.ppd_path a.jamf_event = false)
    (h3 : a.printer_opts_csv = some csv)
    (h4 : a.ppd_path = some p)
    (h5 : env.ppdExistsBefore = true)
    (h6 : (pyLower a.overwrite_ppd == "overwrite") = false) :
    (mainFlow a env).1.all (fun e => !isJamfTrigger e) = true ∧
    ((mainFlow a env).1.head?.map isInstallEv) = some true := by
  obtain ⟨mode, pn, pcsv, uri, ppd, desc, jev, ow⟩ := a
  obtain ⟨lr, rr, peb, jr, pea, ir⟩ := env
  simp only at h1 h2 h3 h4 h5 h6 ⊢
  subst h1 h3 h4 h5
  simp only [mainFlow, addFlow, h2, Bool.false_eq_true, if_false]
  by_cases hc : (csv == "") = true
  · simp only [buildPrinterOptions, buildPrinterModel, hc, if_true]
    simp only [Bool.not_true, Bool.false_or, h6, if_false]
    by_cases hi : install_printer ir = true
    · simp [installStep, hi, isJamfTrigger, isInstallEv]
    · simp [installStep, hi, isJamfTrigger, isInstallEv]
  · simp only [buildPrinterOptions, buildPrinterModel, hc, if_false]
    simp only [Bool.not_true, Bool.false_or, h6, if_false]
    by_cases hi : install_printer ir = true
    · simp [installStep, hi, isJamfTrigger, isInstallEv]
    · simp [installStep, hi, isJamfTrigger, isInstallEv]

/-- Witness for the trigger-skipping theorem: a concrete Add run with the
driver file present and policy "keep": no trigger event, install first. -/
theorem add_existing_ppd_no_overwrite_skips_trigger_witness :
    (mainFlow
        (Args.mk Mode.Add "Lobby" (some "Duplex=True") (some "lpd://10.0.0.5/q")
          (some "/tmp/hp.ppd") none (some "install_hp") "keep")
        (Env.mk none none true none false (some (CmdStreams.mk "" "")))).1.all
      (fun e => !isJamfTrigger e) = true ∧
    ((mainFlow
        (Args.mk Mode.Add "Lobby" (some "Duplex=True") (some "lpd://10.0.0.5/q")
          (some "/tmp/hp.ppd") none (some "install_hp") "keep")
        (Env.mk none none true none false (some (CmdStreams.mk "" "")))).1.head?.map
      isInstallEv) = some true :=
  add_existing_ppd_no_overwrite_skips_trigger _ _ "Duplex=True" "/tmp/hp.ppd"
    rfl rfl rfl rfl rfl rfl

/-- C8: in Remove mode, when the printer query succeeded and its set does
not contain `printer_name`, the run performs only the query and the error
dialog (never `lpadmin -x`), writes the not-installed message, and exits
with status 1. -/
theorem remove_missing_printer_exits_one (a : Args) (env : Env)
    (printers : List String)
    (h1 : a.mode = Mode.Remove)
    (h2 : return_installed_printer_names env.lpstatRun = Except.ok (true, printers))
    (h3 : printers.contains a.printer_name = false) :
    mainFlow a env =
      ([Ev.lpstatQuery, Ev.showDialog (notInstalledMsg a.printer_name)],
       Outcome.exited 1 (notInstalledMsg a.printer_name)) := by
  have h4 : a.printer_name ∉ printers := by simpa using h3
  unfold mainFlow removeFlow
  rw [h1, h2]
  simp [h4]

/-- Witness for the Remove-mode not-installed path: an empty installed set
and a concrete queue name. -/
theorem remove_missing_printer_exits_one_witness :
    mainFlow (Args.mk Mode.Remove "Lobby" none none none none none "overwrite")
      (Env.mk (some (CmdStreams.mk "" "")) none false none false none) =
      ([Ev.lpstatQuery, Ev.showDialog (notInstalledMsg "Lobby")],
       Outcome.exited 1 (notInstalledMsg "Lobby")) :=
  remove_missing_printer_exits_one _ _ [] rfl rfl rfl

/-- C9: when the printer query's spawn completed, the success flag is false
only if the error stream was non-empty; a clean run is reported successful
with exactly the extracted names, and in particular a clean run whose output
matches no printer line returns `(True, [])`. -/
theorem printer_query_success_iff_clean (out err : String) (s : Bool)
    (ps : List String)
    (h : return_installed_printer_names (some (CmdStreams.mk out err)) =
      Except.ok (s, ps)) :
    (s = false → err ≠ "") ∧
    (err = "" → s = true ∧ ps = pyExtractPrinters out) ∧
    (err = "" → pyExtractPrinters out = [] →
      return_installed_printer_names (some (CmdStreams.mk out err)) =
        Except.ok (true, [])) := by
  simp only [return_installed_printer_names] at h
  by_cases he : err = ""
  · subst he
    rw [if_neg (by simp)] at h
    rw [Except.ok.injEq, Prod.mk.injEq] at h
    obtain ⟨hs, hp⟩ := h
    subst hs
    subst hp
    refine ⟨by simp, fun _ => ⟨rfl, rfl⟩, fun _ hemp => ?_⟩
    simp only [return_installed_printer_names]
    rw [if_neg (by simp), hemp]
  · rw [if_pos he] at h
    rw [Except.ok.injEq, Prod.mk.injEq] at h
    obtain ⟨hs, hp⟩ := h
    subst hs
    exact ⟨fun _ => he, fun hc => absurd hc he, fun hc => absurd hc he⟩

/-- Witness for the query success flag: a clean run listing one printer. -/
theorem printer_query_success_iff_clean_witness :
    ((true : Bool) = false → ("" : String) ≠ "") ∧
    (("" : String) = "" → (true : Bool) = true ∧
      (["A"] : List String) = pyExtractPrinters "device for A: lpd://x") ∧
    (("" : String) = "" → pyExtractPrinters "device for A: lpd://x" = [] →
      return_installed_printer_names (some (CmdStreams.mk "device for A: lpd://x" "")) =
        Except.ok (true, [])) :=
  printer_query_success_iff_clean "device for A: lpd://x" "" true ["A"] rfl
